import Mathlib

/-!
Shallow embedding of `packaging/openssh_loee/__init__.py`, a launcher shim
that resolves the path of a bundled `ssh` binary relative to the package's
own location and replaces the current process with it.

Path computations (`os.path.dirname`, `os.path.join` for POSIX) are embedded
as pure string functions.  `main` is embedded as a pure function from its
ambient inputs (the module's `__file__`, the caller's arguments `sys.argv[1:]`,
the inherited environment and open standard streams, an `isfile` oracle for
the filesystem, and an oracle giving the error `os.execvp` would raise, if
any) to a trace of its observable effects and a final outcome.
-/

namespace OpensshLoee

/-- `True` iff the string starts with the POSIX separator `'/'`. -/
def strStartsWithSlash (s : String) : Bool :=
  match s.toList with
  | c :: _ => c = '/'
  | [] => false

/-- `True` iff the string ends with the POSIX separator `'/'`. -/
def strEndsWithSlash (s : String) : Bool :=
  match s.toList.getLast? with
  | some c => c = '/'
  | none => false

/-- POSIX `os.path.join(a, b)`: if `b` is absolute it wins; otherwise `b` is
appended to `a`, inserting `'/'` unless `a` is empty or already ends in it. -/
def pathJoin (a b : String) : String :=
  if strStartsWithSlash b then b
  else if a = "" ∨ strEndsWithSlash a then a ++ b
  else a ++ "/" ++ b

/-- The prefix of a character list up to and including its last `'/'`
(empty if there is no `'/'`).  Helper for `dirname`. -/
def takeThroughLastSlash : List Char → List Char
  | [] => []
  | c :: rest =>
      let t := takeThroughLastSlash rest
      if t ≠ [] then c :: t
      else if c = '/' then ['/'] else []

/-- `True` iff every character of the list is `'/'`. -/
def allSlashes (cs : List Char) : Bool := cs.all (fun c => c = '/')

/-- Remove all trailing `'/'` characters. -/
def rstripSlashes (cs : List Char) : List Char :=
  (cs.reverse.dropWhile (fun c => c = '/')).reverse

/-- POSIX `os.path.dirname(p)`: everything up to the last `'/'`; trailing
separators are stripped unless the head consists only of separators. -/
def dirname (p : String) : String :=
  let head := takeThroughLastSlash p.toList
  let head := if head ≠ [] ∧ ¬ allSlashes head then rstripSlashes head else head
  String.mk head

/-- `_bin_dir()`: `os.path.join(os.path.dirname(__file__), "bin")`. -/
def binDir (file : String) : String :=
  pathJoin (dirname file) "bin"

/-- `ssh_path()`: `os.path.join(_bin_dir(), "ssh")`, the absolute path of the
patched ssh binary. -/
def ssh_path (file : String) : String :=
  pathJoin (binDir file) "ssh"

/-- The environment and open standard streams a process holds and that
`os.execvp` lets the replacement image inherit unchanged. -/
structure EnvStreams where
  env : List (String × String)
  openFds : List Nat
deriving Repr, DecidableEq

/-- How an invocation of `main` ends: the process image is replaced
(`exec`, carrying program, argv and the inherited environment and streams),
the process exits with a status (`exit`), an exception from `os.execvp`
propagates uncaught (`uncaught`), or `main` returns normally (`returned`,
which the embedding proves never happens). -/
inductive Outcome
  | exec (prog : String) (argv : List String) (inh : EnvStreams)
  | exit (code : Nat)
  | uncaught (err : String)
  | returned
deriving Repr, DecidableEq

/-- The observable effects of one invocation of `main`: the lines printed to
stdout and stderr, any filesystem writes performed, the process environment
as left on a non-exec path, and the final outcome. -/
structure RunResult where
  stdoutLines : List String
  stderrLines : List String
  fsWrites : List (String × String)
  finalEnv : List (String × String)
  outcome : Outcome
deriving Repr, DecidableEq

/-- `main()`: compute the binary path; if `os.path.isfile` rejects it, print
one diagnostic line to stderr and exit with status 1; otherwise call
`os.execvp(binary, [binary] + sys.argv[1:])`, which replaces the process
(inheriting environment and streams) or raises, the exception propagating
uncaught.  `isfile` is the filesystem oracle; `execvpErr` gives the error
`os.execvp` raises at a given program and argv, if any. -/
def main (file : String) (args : List String) (inh : EnvStreams)
    (isfile : String → Bool)
    (execvpErr : String → List String → Option String) : RunResult :=
  let binary := ssh_path file
  if ¬ isfile binary then
    { stdoutLines := []
      stderrLines := ["Error: ssh binary not found at " ++ binary]
      fsWrites := []
      finalEnv := inh.env
      outcome := .exit 1 }
  else
    match execvpErr binary (binary :: args) with
    | none =>
        { stdoutLines := []
          stderrLines := []
          fsWrites := []
          finalEnv := inh.env
          outcome := .exec binary (binary :: args) inh }
    | some e =>
        { stdoutLines := []
          stderrLines := []
          fsWrites := []
          finalEnv := inh.env
          outcome := .uncaught e }

/-- A concrete filesystem oracle in which exactly `/opt/tool/bin/ssh` is a
regular file. -/
def isfileOpt : String → Bool := fun s => s == "/opt/tool/bin/ssh"

/-- A concrete filesystem oracle in which no path is a regular file. -/
def isfileNone : String → Bool := fun _ => false

/-- A concrete `os.execvp` oracle that never raises. -/
def noExecErr : String → List String → Option String := fun _ _ => none

/-- A concrete inherited environment and stream set. -/
def inh0 : EnvStreams :=
  { env := [("HOME", "/root"), ("TERM", "xterm")], openFds := [0, 1, 2] }

/-- A concrete `os.execvp` oracle that always raises (e.g. the file exists
but is not executable). -/
def permExecErr : String → List String → Option String := fun _ _ => some "EACCES"

lemma strEndsWithSlash_append_slash_bin (P : String) :
    strEndsWithSlash (P ++ "/" ++ "bin") = false := by
  unfold strEndsWithSlash
  have h : (P ++ "/" ++ "bin").toList = P.toList ++ '/' :: ['b', 'i', 'n'] := by
    simp [String.toList, String.data_append]
  rw [h, List.getLast?_append_cons]
  decide

lemma append_slash_bin_ne_empty (P : String) : P ++ "/" ++ "bin" ≠ "" := by
  intro h
  have h2 := congrArg String.length h
  simp [String.length_append] at h2
  exact (by decide : ¬ ("bin".length = 0)) h2.2

/-- The binary path computed by `ssh_path` is the package directory followed
by the fixed relative subpath `/bin/ssh`, provided the package directory is a
normal nonempty directory path without a trailing separator. -/
lemma ssh_path_formula (file P : String) (h1 : dirname file = P) (h2 : P ≠ "")
    (h3 : strEndsWithSlash P = false) : ssh_path file = P ++ "/bin/ssh" := by
  have hb : pathJoin P "bin" = P ++ "/" ++ "bin" := by
    unfold pathJoin
    rw [if_neg, if_neg]
    · rintro (rfl | hP)
      · exact h2 rfl
      · rw [h3] at hP
        exact Bool.false_ne_true hP
    · decide
  have hs : pathJoin (P ++ "/" ++ "bin") "ssh" = P ++ "/" ++ "bin" ++ "/" ++ "ssh" := by
    unfold pathJoin
    rw [if_neg, if_neg]
    · rintro (hP | hP)
      · exact append_slash_bin_ne_empty P hP
      · rw [strEndsWithSlash_append_slash_bin] at hP
        exact Bool.false_ne_true hP
    · decide
  unfold ssh_path binDir
  rw [h1, hb, hs]
  rw [String.append_assoc, String.append_assoc, String.append_assoc]
  rfl

lemma errMsg_ne_empty (s : String) : "Error: ssh binary not found at " ++ s ≠ "" := by
  intro h
  have h2 := congrArg String.length h
  simp [String.length_append] at h2
  exact (by decide : ¬ ("Error: ssh binary not found at ".length = 0)) h2.1

/-- C1: when the computed binary path is a regular file (and `os.execvp` does
not itself fail), `main` replaces the current process image with that binary,
with argv whose head is the binary path and whose tail is exactly the
caller's original arguments, inheriting the environment and open standard
streams unchanged. -/
theorem main_exec_replaces_process (file : String) (args : List String)
    (inh : EnvStreams) (isfile : String → Bool)
    (execvpErr : String → List String → Option String)
    (h1 : isfile (ssh_path file) = true)
    (h2 : execvpErr (ssh_path file) (ssh_path file :: args) = none) :
    (main file args inh isfile execvpErr).outcome
      = Outcome.exec (ssh_path file) (ssh_path file :: args) inh := by
  simp [main, h1, h2]

/-- C1 witness: with the package at `/opt/tool` and caller arguments
`["user@host", "-p", "2222"]`, the replaced process receives argv
`["/opt/tool/bin/ssh", "user@host", "-p", "2222"]` and the caller's
environment and streams. -/
theorem main_exec_replaces_process_witness :
    (main "/opt/tool/__init__.py" ["user@host", "-p", "2222"] inh0 isfileOpt
        noExecErr).outcome
      = Outcome.exec "/opt/tool/bin/ssh"
          ["/opt/tool/bin/ssh", "user@host", "-p", "2222"] inh0 :=
  main_exec_replaces_process "/opt/tool/__init__.py" ["user@host", "-p", "2222"]
    inh0 isfileOpt noExecErr (by decide) rfl

/-- C2: when the computed binary path is not a regular file, `main` writes a
non-empty diagnostic containing the computed path to stderr, exits with
status 1, and never reaches process replacement. -/
theorem main_missing_binary_diagnoses_and_exits (file : String)
    (args : List String) (inh : EnvStreams) (isfile : String → Bool)
    (execvpErr : String → List String → Option String)
    (h : isfile (ssh_path file) = false) :
    (main file args inh isfile execvpErr).outcome = Outcome.exit 1 ∧
    (main file args inh isfile execvpErr).stderrLines
      = ["Error: ssh binary not found at " ++ ssh_path file] ∧
    (∃ pre post, "Error: ssh binary not found at " ++ ssh_path file
        = pre ++ ssh_path file ++ post) ∧
    "Error: ssh binary not found at " ++ ssh_path file ≠ "" ∧
    ∀ p a i, (main file args inh isfile execvpErr).outcome ≠ Outcome.exec p a i := by
  refine ⟨by simp [main, h], by simp [main, h], ?_, errMsg_ne_empty _, ?_⟩
  · exact ⟨"Error: ssh binary not found at ", "", by rw [String.append_empty]⟩
  · intro p a i hcontra
    rw [show (main file args inh isfile execvpErr).outcome = Outcome.exit 1 by
      simp [main, h]] at hcontra
    exact Outcome.noConfusion hcontra

/-- C2 witness: with the package at `/opt/tool` and the binary absent, stderr
holds the line naming `/opt/tool/bin/ssh` and the process exits with 1. -/
theorem main_missing_binary_diagnoses_and_exits_witness :
    (main "/opt/tool/__init__.py" [] inh0 isfileNone noExecErr).outcome
        = Outcome.exit 1 ∧
    (main "/opt/tool/__init__.py" [] inh0 isfileNone noExecErr).stderrLines
        = ["Error: ssh binary not found at /opt/tool/bin/ssh"] := by
  have h := main_missing_binary_diagnoses_and_exits "/opt/tool/__init__.py" []
    inh0 isfileNone noExecErr rfl
  exact ⟨h.1, h.2.1⟩

/-- C3: for a package location `P` (a nonempty directory path with no
trailing separator), `ssh_path` returns exactly `P` followed by `/bin/ssh`;
the computation is a total pure function of the package location alone. -/
theorem ssh_path_is_location_bin_ssh (file P : String)
    (h1 : dirname file = P) (h2 : P ≠ "") (h3 : strEndsWithSlash P = false) :
    ssh_path file = P ++ "/bin/ssh" :=
  ssh_path_formula file P h1 h2 h3

/-- C3 witness: with the launcher installed at `/opt/tool`, the computed
binary path is `/opt/tool/bin/ssh`. -/
theorem ssh_path_is_location_bin_ssh_witness :
    ssh_path "/opt/tool/__init__.py" = "/opt/tool" ++ "/bin/ssh" :=
  ssh_path_is_location_bin_ssh "/opt/tool/__init__.py" "/opt/tool" (by decide)
    (by decide) (by decide)

/-- C4: the argument vector forwarded to the replaced process is the binary
path followed by an exact, order-preserving, count-preserving copy of the
caller's argument list, passed as a literal vector. -/
theorem main_forwards_args_verbatim (file : String) (args : List String)
    (inh : EnvStreams) (isfile : String → Bool)
    (execvpErr : String → List String → Option String)
    (h1 : isfile (ssh_path file) = true)
    (h2 : execvpErr (ssh_path file) (ssh_path file :: args) = none) :
    (main file args inh isfile execvpErr).outcome
      = Outcome.exec (ssh_path file) (ssh_path file :: args) inh ∧
    (ssh_path file :: args).head? = some (ssh_path file) ∧
    (ssh_path file :: args).tail = args ∧
    (ssh_path file :: args).length = args.length + 1 := by
  exact ⟨by simp [main, h1, h2], rfl, rfl, by simp⟩

/-- C4 witness: an argument list with an empty string, embedded whitespace
and shell metacharacters is forwarded verbatim after the binary path. -/
theorem main_forwards_args_verbatim_witness :
    (main "/opt/tool/__init__.py" ["a b", "", "; echo *", "-p"] inh0 isfileOpt
        noExecErr).outcome
      = Outcome.exec "/opt/tool/bin/ssh"
          ["/opt/tool/bin/ssh", "a b", "", "; echo *", "-p"] inh0 ∧
    (["/opt/tool/bin/ssh", "a b", "", "; echo *", "-p"] : List String).tail
      = ["a b", "", "; echo *", "-p"] := by
  have h := main_forwards_args_verbatim "/opt/tool/__init__.py"
    ["a b", "", "; echo *", "-p"] inh0 isfileOpt noExecErr (by decide) rfl
  exact ⟨h.1, h.2.2.1⟩

/-- C5: the missing binary is the only error condition of the launcher: any
exit outcome has status 1 and happens only when the path is not a regular
file; when the path is a regular file the launcher prints no diagnostic of
its own and (when `os.execvp` does not fail) proceeds to replacement. -/
theorem missing_binary_only_error (file : String) (args : List String)
    (inh : EnvStreams) (isfile : String → Bool)
    (execvpErr : String → List String → Option String) :
    (∀ c, (main file args inh isfile execvpErr).outcome = Outcome.exit c →
      c = 1 ∧ isfile (ssh_path file) = false) ∧
    (isfile (ssh_path file) = true →
      (main file args inh isfile execvpErr).stderrLines = [] ∧
      (execvpErr (ssh_path file) (ssh_path file :: args) = none →
        (main file args inh isfile execvpErr).outcome
          = Outcome.exec (ssh_path file) (ssh_path file :: args) inh)) := by
  constructor
  · intro c hc
    by_cases h : isfile (ssh_path file) = true
    · rcases he : execvpErr (ssh_path file) (ssh_path file :: args) with _ | e
      · simp [main, h, he] at hc
      · simp [main, h, he] at hc
    · have h2 : isfile (ssh_path file) = false := by simpa using h
      simp [main, h2] at hc
      exact ⟨hc.symm, h2⟩
  · intro h
    refine ⟨?_, fun he => by simp [main, h, he]⟩
    rcases he : execvpErr (ssh_path file) (ssh_path file :: args) with _ | e
    · simp [main, h, he]
    · simp [main, h, he]

/-- C5 witness: at a concrete missing-binary invocation, the exit outcome
carries status 1 and the existence check indeed failed. -/
theorem missing_binary_only_error_witness :
    1 = 1 ∧ isfileNone (ssh_path "/opt/tool/__init__.py") = false :=
  (missing_binary_only_error "/opt/tool/__init__.py" [] inh0 isfileNone
    noExecErr).1 1 rfl

/-- C6: `main` has no normal return: its outcome is never `returned`, and
whenever `os.execvp` does not itself fail, the invocation either exits the
process with the non-zero status 1 (error path) or is superseded by the
replaced binary (success path). -/
theorem main_never_returns_control (file : String) (args : List String)
    (inh : EnvStreams) (isfile : String → Bool)
    (execvpErr : String → List String → Option String) :
    (main file args inh isfile execvpErr).outcome ≠ Outcome.returned ∧
    (execvpErr (ssh_path file) (ssh_path file :: args) = none →
      (main file args inh isfile execvpErr).outcome = Outcome.exit 1 ∨
      (main file args inh isfile execvpErr).outcome
        = Outcome.exec (ssh_path file) (ssh_path file :: args) inh) := by
  constructor
  · by_cases h : isfile (ssh_path file) = true
    · rcases he : execvpErr (ssh_path file) (ssh_path file :: args) with _ | e
      · simp [main, h, he]
      · simp [main, h, he]
    · have h2 : isfile (ssh_path file) = false := by simpa using h
      simp [main, h2]
  · intro he
    by_cases h : isfile (ssh_path file) = true
    · exact Or.inr (by simp [main, h, he])
    · have h2 : isfile (ssh_path file) = false := by simpa using h
      exact Or.inl (by simp [main, h2])

/-- C6 witness: at a concrete invocation with the binary present, the
outcome is not a normal return and is the exec disjunct. -/
theorem main_never_returns_control_witness :
    (main "/opt/tool/__init__.py" ["-V"] inh0 isfileOpt noExecErr).outcome
        ≠ Outcome.returned ∧
    ((main "/opt/tool/__init__.py" ["-V"] inh0 isfileOpt noExecErr).outcome
        = Outcome.exit 1 ∨
     (main "/opt/tool/__init__.py" ["-V"] inh0 isfileOpt noExecErr).outcome
        = Outcome.exec (ssh_path "/opt/tool/__init__.py")
            (ssh_path "/opt/tool/__init__.py" :: ["-V"]) inh0) := by
  have h := main_never_returns_control "/opt/tool/__init__.py" ["-V"] inh0
    isfileOpt noExecErr
  exact ⟨h.1, h.2 rfl⟩

/-- C7: the binary path is deterministic given the installed package
location: any two module file paths with the same containing directory yield
the same `ssh_path` result. -/
theorem ssh_path_deterministic_in_location (f g : String)
    (h : dirname f = dirname g) : ssh_path f = ssh_path g := by
  unfold ssh_path binDir
  rw [h]

/-- C7 witness: two module files in the same installed location `/opt/tool`
compute the same binary path. -/
theorem ssh_path_deterministic_in_location_witness :
    ssh_path "/opt/tool/__init__.py" = ssh_path "/opt/tool/other.py" :=
  ssh_path_deterministic_in_location "/opt/tool/__init__.py"
    "/opt/tool/other.py" (by decide)

/-- C8: on the missing-binary failure path, exactly one line is written to
the error stream, it identifies the expected binary path, and the process
then terminates with status 1. -/
theorem missing_binary_single_stderr_line (file : String) (args : List String)
    (inh : EnvStreams) (isfile : String → Bool)
    (execvpErr : String → List String → Option String)
    (h : isfile (ssh_path file) = false) :
    (main file args inh isfile execvpErr).stderrLines.length = 1 ∧
    (∃ pre post, (main file args inh isfile execvpErr).stderrLines
        = [pre ++ ssh_path file ++ post]) ∧
    (main file args inh isfile execvpErr).outcome = Outcome.exit 1 := by
  refine ⟨by simp [main, h], ?_, by simp [main, h]⟩
  refine ⟨"Error: ssh binary not found at ", "", ?_⟩
  simp [main, h, String.append_empty]

/-- C8 witness: at a concrete missing-binary invocation, the error stream
holds exactly one line. -/
theorem missing_binary_single_stderr_line_witness :
    (main "/opt/tool/__init__.py" ["x"] inh0 isfileNone noExecErr).stderrLines.length
      = 1 :=
  (missing_binary_single_stderr_line "/opt/tool/__init__.py" ["x"] inh0
    isfileNone noExecErr rfl).1

/-- C9: if the existence check passes but `os.execvp` itself fails, the
error propagates out of `main` uncaught: no diagnostic is printed and the
launcher does not exit with its own status. -/
theorem execvp_failure_propagates_uncaught (file : String) (args : List String)
    (inh : EnvStreams) (isfile : String → Bool)
    (execvpErr : String → List String → Option String) (e : String)
    (h1 : isfile (ssh_path file) = true)
    (h2 : execvpErr (ssh_path file) (ssh_path file :: args) = some e) :
    (main file args inh isfile execvpErr).outcome = Outcome.uncaught e ∧
    (main file args inh isfile execvpErr).stderrLines = [] ∧
    ∀ c, (main file args inh isfile execvpErr).outcome ≠ Outcome.exit c := by
  refine ⟨by simp [main, h1, h2], by simp [main, h1, h2], ?_⟩
  intro c hcontra
  rw [show (main file args inh isfile execvpErr).outcome = Outcome.uncaught e by
    simp [main, h1, h2]] at hcontra
  exact Outcome.noConfusion hcontra

/-- C9 witness: with the binary present but not executable, the `EACCES`
error propagates uncaught and nothing is printed to stderr. -/
theorem execvp_failure_propagates_uncaught_witness :
    (main "/opt/tool/__init__.py" ["-V"] inh0 isfileOpt permExecErr).outcome
        = Outcome.uncaught "EACCES" ∧
    (main "/opt/tool/__init__.py" ["-V"] inh0 isfileOpt permExecErr).stderrLines
        = [] := by
  have h := execvp_failure_propagates_uncaught "/opt/tool/__init__.py" ["-V"]
    inh0 isfileOpt permExecErr "EACCES" (by decide) rfl
  exact ⟨h.1, h.2.1⟩

/-- C10: on the missing-binary error path the launcher writes nothing to
stdout, performs no filesystem write, leaves the environment unchanged, and
its only observable effects are the single stderr line and the exit
status 1. -/
theorem missing_binary_frame_effects (file : String) (args : List String)
    (inh : EnvStreams) (isfile : String → Bool)
    (execvpErr : String → List String → Option String)
    (h : isfile (ssh_path file) = false) :
    (main file args inh isfile execvpErr).stdoutLines = [] ∧
    (main file args inh isfile execvpErr).fsWrites = [] ∧
    (main file args inh isfile execvpErr).finalEnv = inh.env ∧
    (main file args inh isfile execvpErr).stderrLines
      = ["Error: ssh binary not found at " ++ ssh_path file] ∧
    (main file args inh isfile execvpErr).outcome = Outcome.exit 1 := by
  refine ⟨by simp [main, h], by simp [main, h], by simp [main, h],
    by simp [main, h], by simp [main, h]⟩

/-- C10 witness: at a concrete missing-binary invocation, stdout, filesystem
writes are empty and the environment is unchanged. -/
theorem missing_binary_frame_effects_witness :
    (main "/opt/tool/__init__.py" [] inh0 isfileNone noExecErr).stdoutLines = [] ∧
    (main "/opt/tool/__init__.py" [] inh0 isfileNone noExecErr).fsWrites = [] ∧
    (main "/opt/tool/__init__.py" [] inh0 isfileNone noExecErr).finalEnv
      = inh0.env := by
  have h := missing_binary_frame_effects "/opt/tool/__init__.py" [] inh0
    isfileNone noExecErr rfl
  exact ⟨h.1, h.2.1, h.2.2.1⟩

end OpensshLoee
